import Mathlib

/-!
Verification of the health-watcher and sticky-cookie middleware of
another-rust-load-balancer, as a shallow embedding of `src/health.rs` and
`src/middleware/sticky_cookie_companion.rs`.

Machine integers are modelled as `Nat`/`Int`: none of the embedded code paths
can overflow (`i64` thresholds and elapsed milliseconds, `u64` timeouts, `u16`
status codes all stay far below their bounds in every claim considered).
Network interaction (hyper's `Client::get` behind a `TimeoutConnector`) is
modelled by an explicit `NetworkBehavior` record describing how the backend
responds; URI parsing performed by the `http` crate is modelled at the
character level.
-/

/-- `CHECK_INTERVAL` (health.rs line 18): amount of time in seconds to pass
until the next health check is started. -/
def CHECK_INTERVAL : Int := 20

/-- `HealthConfig` (health.rs lines 20-26): per-pool health-check parameters.
`slow_threshold` and `interval` are `i64` in the source, `timeout` is `u64`. -/
structure HealthConfig where
  slow_threshold : Int
  interval : Int
  timeout : Nat
  path : String
deriving DecidableEq, Repr

/-- HTTP status code, `u16` in hyper's `StatusCode`. -/
abbrev StatusCode := Nat

/-- `StatusCode::is_success`: 2xx means 200 ≤ code < 300. -/
def is_success (code : StatusCode) : Bool :=
  200 ≤ code && code < 300

/-- `Healthiness` (health.rs lines 28-33): the most recent probe outcome for
one backend address. `Slow` carries the response time in milliseconds. -/
inductive Healthiness where
  | healthy
  | slow (response_time : Int)
  | unresponsive (status : Option StatusCode)
deriving DecidableEq, Repr

/-- `impl fmt::Display for Healthiness` (health.rs lines 35-44). The source
renders an `Unresponsive` status through hyper's `StatusCode` display; this
model renders the numeric code, which is all the claims below inspect. -/
def healthiness_display : Healthiness → String
  | Healthiness.healthy => "Healthy"
  | Healthiness.slow t => "Slow " ++ toString t
  | Healthiness.unresponsive (some code) => "Unresponsive, status: " ++ toString code
  | Healthiness.unresponsive none => "Unresponsive"

/-- How the backend behind one probe behaves on the wire: whether a TCP
connection can be established, how long the connect/read/write phases take
(milliseconds), and, when a response arrives, its status code and the total
elapsed time observed by `SystemTime::elapsed` (health.rs lines 98-103). -/
structure NetworkBehavior where
  connects : Bool
  connect_ms : Nat
  read_ms : Nat
  write_ms : Nat
  status : StatusCode
  elapsed_ms : Nat
deriving DecidableEq, Repr

/-- Result of one `client.get(server_address).await` (health.rs line 100). -/
inductive ProbeResponse where
  | response (status : StatusCode) (elapsed_ms : Nat)
  | failure
deriving DecidableEq, Repr

/-- Models the transport of health.rs lines 91-100: hyper's `HttpConnector`
wrapped in a `TimeoutConnector` whose connect, read and write timeouts are
each set to the same `timeout` milliseconds (lines 93-95). A connection
failure, or any phase exceeding its timeout, surfaces as the `Err` branch of
`client.get`; otherwise the backend's response is delivered. -/
def transport_result (net : NetworkBehavior) (timeout : Nat) : ProbeResponse :=
  if !net.connects || net.connect_ms > timeout || net.read_ms > timeout
      || net.write_ms > timeout then
    ProbeResponse.failure
  else
    ProbeResponse.response net.status net.elapsed_ms

/-- `contact_server` (health.rs lines 90-116): classify one probe. The
`i64::try_from(u128)` conversion of the elapsed milliseconds (line 104) cannot
fail below 2^63 ms; the model uses unbounded integers. -/
def contact_server (net : NetworkBehavior) (slow_threshold : Int) (timeout : Nat) :
    Healthiness :=
  match transport_result net timeout with
  | ProbeResponse.response status elapsed_ms =>
    if is_success status then
      if (elapsed_ms : Int) > slow_threshold then
        Healthiness.slow (elapsed_ms : Int)
      else
        Healthiness.healthy
    else
      Healthiness.unresponsive (some status)
  | ProbeResponse.failure => Healthiness.unresponsive none

/-- Effect of one probe on its address's healthiness cell and on the log:
`store` is the value written by `healthiness.store` (none when no store
happens) and `log` the `info!` line (none when nothing is logged). -/
structure CellEffect where
  store : Option Healthiness
  log : Option String
deriving DecidableEq, Repr

/-- The publish step of `check_server_health_once` (health.rs lines 81-88):
compare the probe result to the previously published healthiness; on change,
emit one `info!` event and store the new value; otherwise do nothing. -/
def publish_if_changed (server_address : String) (previous result : Healthiness) :
    CellEffect :=
  if previous ≠ result then
    { store := some result
      log := some ("new healthiness for " ++ server_address ++ ": "
        ++ healthiness_display result) }
  else
    { store := none, log := none }

/-- Models the `http` crate's `Authority` grammar used by
`Authority::from_maybe_shared` (health.rs line 77) at the character level:
an authority is non-empty and consists of RFC 3986 authority characters
(alphanumerics, sub-delims, `-._~%:@[]`); a space in particular is rejected
and makes `from_maybe_shared` return `Err`. -/
def is_authority_char (c : Char) : Bool :=
  c.isAlphanum || c ∈ ['-', '.', '_', '~', '%', '!', '$', '&', '(', ')',
    '*', '+', ',', ';', '=', ':', '@', '[', ']']

def is_valid_authority (s : String) : Bool :=
  !s.data.isEmpty && s.data.all is_authority_char

/-- Models the `http` crate's path-and-query grammar used by
`Uri::builder().path_and_query` (health.rs line 76) at the character level:
pchar plus `/` and `?`; a space is rejected and makes `Builder::build`
return `Err`. -/
def is_path_char (c : Char) : Bool :=
  c.isAlphanum || c ∈ ['-', '.', '_', '~', '%', '!', '$', '&', '(', ')',
    '*', '+', ',', ';', '=', ':', '@', '/', '?']

def is_valid_path_and_query (s : String) : Bool :=
  s.data.all is_path_char

/-- Outcome of one `check_server_health_once` call: either it ran to
completion with some effect on its own cell, or an `unwrap` panicked while
building the probe URI. -/
inductive ProbeOutcome where
  | completed (effect : CellEffect)
  | panicked
deriving DecidableEq, Repr

/-- `check_server_health_once` (health.rs lines 69-88): build the probe URI
(`.unwrap()` on the authority at line 77 and on the builder at line 79 panic
on malformed input), load the previously published healthiness, contact the
server, and publish on change. -/
def check_server_health_once (server_address : String) (previous : Healthiness)
    (health_config : HealthConfig) (net : NetworkBehavior) : ProbeOutcome :=
  if is_valid_authority server_address && is_valid_path_and_query health_config.path then
    ProbeOutcome.completed (publish_if_changed server_address previous
      (contact_server net health_config.slow_threshold health_config.timeout))
  else
    ProbeOutcome.panicked

/-- Modelled from the spec: `BackendPool` lives in `src/server.rs`, which is
not among the visible sources; its shape is fixed by its use in health.rs
lines 59-61 (`pool.addresses` iterated as `(server_address, healthiness)`
pairs, `pool.health_config`) and §3 of the design: an ordered list of backend
addresses, each paired with the current value of its healthiness cell, plus
the pool's `HealthConfig`. -/
structure BackendPool where
  addresses : List (String × Healthiness)
  health_config : HealthConfig
deriving DecidableEq, Repr

/-- A routing snapshot as seen by the watcher: the `Vec<Arc<BackendPool>>`
view of `SharedData` accessed through `arc_swap::Access`. -/
abbrev Snapshot := List BackendPool

/-- The (pool, address) pairs enumerated from a snapshot, in the order of the
nested loops of health.rs lines 59-64. -/
def enumerate_pairs (pools : Snapshot) : List (BackendPool × String) :=
  pools.flatMap (fun pool => pool.addresses.map (fun a => (pool, a.1)))

/-- The (pool, address) pairs probed at tick `t` of `watch_health`
(health.rs lines 46-67). `snaps n` is the snapshot published and current at
tick `n` (reloads may change it between ticks). The source loads the
`Access` guard ONCE, before the loop (line 53), and each tick clones that
same guard (line 56), so every tick enumerates the snapshot that was current
when the loop started, namely `snaps 0`. -/
def watch_health_tick_pairs (snaps : Nat → Snapshot) (_t : Nat) :
    List (BackendPool × String) :=
  enumerate_pairs (snaps 0)

/-- Modelled from the spec: "On each tick it takes the current SharedData
snapshot, enumerates every (pool, address) pair" — the tick-`t` probe set the
specification prescribes, for comparison with `watch_health_tick_pairs`. -/
def spec_tick_pairs (snaps : Nat → Snapshot) (t : Nat) :
    List (BackendPool × String) :=
  enumerate_pairs (snaps t)

/-- The interval, in seconds, between two consecutive probes of any pool's
addresses: `watch_health` drives all pools from the single timer built from
`CHECK_INTERVAL` (health.rs line 52) and never reads
`health_config.interval`, so the cadence is the same constant for every
pool. -/
def effective_probe_interval_seconds (_health_config : HealthConfig) : Int :=
  CHECK_INTERVAL

/-- One tick's probes, each paired with the address it affects: `watch_health`
lines 59-65 runs `check_server_health_once` for every (pool, address) pair of
the enumerated snapshot and joins them. `nets addr` is how the backend at
`addr` behaves during this tick. -/
def tick_outcomes (pools : Snapshot) (nets : String → NetworkBehavior) :
    List (String × ProbeOutcome) :=
  pools.flatMap (fun pool => pool.addresses.map (fun a =>
    (a.1, check_server_health_once a.1 a.2 pool.health_config (nets a.1))))

lemma transport_result_delivers (net : NetworkBehavior) (timeout : Nat)
    (hconn : net.connects = true) (hc : net.connect_ms ≤ timeout)
    (hr : net.read_ms ≤ timeout) (hw : net.write_ms ≤ timeout) :
    transport_result net timeout = ProbeResponse.response net.status net.elapsed_ms := by
  simp [transport_result, hconn, Nat.not_lt.mpr hc, Nat.not_lt.mpr hr, Nat.not_lt.mpr hw]

/-- C5: for every probe that returns a 2xx status, elapsed time ≤
`slow_threshold` (including exactly equal) classifies `Healthy`, and elapsed
time strictly greater than `slow_threshold` classifies `Slow` carrying the
elapsed milliseconds. -/
theorem C5_success_latency_boundary (net : NetworkBehavior) (slow_threshold : Int)
    (timeout : Nat) (hconn : net.connects = true) (hc : net.connect_ms ≤ timeout)
    (hr : net.read_ms ≤ timeout) (hw : net.write_ms ≤ timeout)
    (hs : is_success net.status = true) :
    ((net.elapsed_ms : Int) ≤ slow_threshold →
      contact_server net slow_threshold timeout = Healthiness.healthy) ∧
    (slow_threshold < (net.elapsed_ms : Int) →
      contact_server net slow_threshold timeout =
        Healthiness.slow (net.elapsed_ms : Int)) := by
  have ht := transport_result_delivers net timeout hconn hc hr hw
  constructor
  · intro hle
    simp [contact_server, ht, hs, not_lt.mpr hle]
  · intro hgt
    simp [contact_server, ht, hs, hgt]

/-- Witness for C5 at the boundary: threshold 300 ms, a 200-status probe with
elapsed exactly 300 classifies Healthy, and with elapsed 301 classifies
Slow 301. -/
theorem C5_witness :
    contact_server
      { connects := true, connect_ms := 10, read_ms := 10, write_ms := 10,
        status := 200, elapsed_ms := 300 } 300 1000 = Healthiness.healthy ∧
    contact_server
      { connects := true, connect_ms := 10, read_ms := 10, write_ms := 10,
        status := 200, elapsed_ms := 301 } 300 1000 = Healthiness.slow 301 :=
  ⟨(C5_success_latency_boundary _ 300 1000 rfl (by decide) (by decide) (by decide)
      (by decide)).1 (by decide),
   (C5_success_latency_boundary _ 300 1000 rfl (by decide) (by decide) (by decide)
      (by decide)).2 (by decide)⟩

/-- C6: for every probe that receives a response with a non-2xx status, the
outcome is `Unresponsive (some status)` with the response status preserved
exactly. -/
theorem C6_non_2xx_preserves_status (net : NetworkBehavior) (slow_threshold : Int)
    (timeout : Nat) (hconn : net.connects = true) (hc : net.connect_ms ≤ timeout)
    (hr : net.read_ms ≤ timeout) (hw : net.write_ms ≤ timeout)
    (hs : is_success net.status = false) :
    contact_server net slow_threshold timeout =
      Healthiness.unresponsive (some net.status) := by
  have ht := transport_result_delivers net timeout hconn hc hr hw
  simp [contact_server, ht, hs]

/-- Witness for C6: a 404 response classifies `Unresponsive (some 404)`. -/
theorem C6_witness :
    contact_server
      { connects := true, connect_ms := 10, read_ms := 10, write_ms := 10,
        status := 404, elapsed_ms := 5 } 300 1000 =
      Healthiness.unresponsive (some 404) :=
  C6_non_2xx_preserves_status _ 300 1000 rfl (by decide) (by decide) (by decide)
    (by decide)

/-- C7: for every probe whose connection fails or whose connect, read or
write phase exceeds the timeout (each timeout equal to `timeout` ms), the
outcome is `Unresponsive none`; `contact_server` returns this as ordinary
state, never as an error. -/
theorem C7_failure_yields_unresponsive_none (net : NetworkBehavior)
    (slow_threshold : Int) (timeout : Nat)
    (h : net.connects = false ∨ timeout < net.connect_ms ∨ timeout < net.read_ms
      ∨ timeout < net.write_ms) :
    contact_server net slow_threshold timeout = Healthiness.unresponsive none := by
  have ht : transport_result net timeout = ProbeResponse.failure := by
    rcases h with h | h | h | h <;> simp [transport_result, h]
  simp [contact_server, ht]

/-- Witness for C7: a probe whose read phase takes 1500 ms against a 1000 ms
timeout yields `Unresponsive none`. -/
theorem C7_witness :
    contact_server
      { connects := true, connect_ms := 10, read_ms := 1500, write_ms := 10,
        status := 200, elapsed_ms := 1500 } 300 1000 =
      Healthiness.unresponsive none :=
  C7_failure_yields_unresponsive_none _ 300 1000 (Or.inr (Or.inr (Or.inl (by decide))))

/-- C4: if the probe's classified result equals the previously published
healthiness, no store and no log event occur; if it differs, the new value is
stored and exactly one informational log event is emitted. -/
theorem C4_change_only_publish (server_address : String)
    (previous result : Healthiness) :
    (previous = result →
      publish_if_changed server_address previous result =
        { store := none, log := none }) ∧
    (previous ≠ result →
      publish_if_changed server_address previous result =
        { store := some result
          log := some ("new healthiness for " ++ server_address ++ ": "
            ++ healthiness_display result) }) := by
  constructor
  · intro h
    simp [publish_if_changed, h]
  · intro h
    simp [publish_if_changed, h]

/-- Witness for C4: a repeated `Healthy` probe stores and logs nothing; a
transition from `Healthy` to `Slow 5` stores the new value and logs once. -/
theorem C4_witness :
    publish_if_changed "127.0.0.1:8080" Healthiness.healthy Healthiness.healthy =
      { store := none, log := none } ∧
    publish_if_changed "127.0.0.1:8080" Healthiness.healthy (Healthiness.slow 5) =
      { store := some (Healthiness.slow 5)
        log := some "new healthiness for 127.0.0.1:8080: Slow 5" } :=
  ⟨(C4_change_only_publish "127.0.0.1:8080" Healthiness.healthy
      Healthiness.healthy).1 rfl,
   (C4_change_only_publish "127.0.0.1:8080" Healthiness.healthy
      (Healthiness.slow 5)).2 (by decide)⟩

/-- C10: change detection compares the full `Healthiness` value including the
`Slow` payload: two consecutive `Slow` results with different elapsed values
count as a change, triggering a store and one log event. -/
theorem C10_slow_payload_is_compared (server_address : String) (a b : Int)
    (h : a ≠ b) :
    publish_if_changed server_address (Healthiness.slow a) (Healthiness.slow b) =
      { store := some (Healthiness.slow b)
        log := some ("new healthiness for " ++ server_address ++ ": "
          ++ healthiness_display (Healthiness.slow b)) } := by
  simp [publish_if_changed, h]

/-- Witness for C10: `Slow 120` followed by `Slow 350` stores `Slow 350` and
logs once. -/
theorem C10_witness :
    publish_if_changed "10.0.0.7:3000" (Healthiness.slow 120) (Healthiness.slow 350) =
      { store := some (Healthiness.slow 350)
        log := some "new healthiness for 10.0.0.7:3000: Slow 350" } :=
  C10_slow_payload_is_compared "10.0.0.7:3000" 120 350 (by decide)

/-- `cookie::SameSite`, as carried by `StickyCookieConfig`. -/
inductive SameSite where
  | strict
  | lax
  | relaxedNone
deriving DecidableEq, Repr

/-- Modelled from the spec: `StickyCookieConfig` lives in
`src/lb_strategy/sticky_cookie.rs`, which is not among the visible sources;
its shape is fixed by its use in sticky_cookie_companion.rs lines 20-23
(`cookie_name`, `http_only`, `secure`, `same_site`) and §4.2 of the design:
the per-pool cookie name and attributes. -/
structure StickyCookieConfig where
  cookie_name : String
  http_only : Bool
  secure : Bool
  same_site : SameSite
deriving DecidableEq, Repr

def same_site_attr : SameSite → String
  | SameSite.strict => "; SameSite=Strict"
  | SameSite.lax => "; SameSite=Lax"
  | SameSite.relaxedNone => "; SameSite=None"

/-- Models the `cookie` crate's serialization of the cookie built at
sticky_cookie_companion.rs lines 20-24: `name=value` followed by the enabled
attributes (the exact attribute order is immaterial to the claims below). -/
def cookie_to_string (config : StickyCookieConfig) (value : String) : String :=
  config.cookie_name ++ "=" ++ value
    ++ (if config.http_only then "; HttpOnly" else "")
    ++ (if config.secure then "; Secure" else "")
    ++ same_site_attr config.same_site

/-- An HTTP response as the middleware sees it: status, header multimap
(hyper's `HeaderMap`, here an association list in insertion order; lookups
gather all values of a name), and body. -/
structure HttpResponse where
  status : Nat
  headers : List (String × String)
  body : String
deriving DecidableEq, Repr

/-- All values carried by header `name`, in order (hyper's
`HeaderMap::get_all`). -/
def get_all (headers : List (String × String)) (name : String) : List String :=
  (headers.filter (fun p => p.1 == name)).map (fun p => p.2)

/-- hyper's `HeaderMap::insert` (sticky_cookie_companion.rs line 28): inserts
the value, REPLACING any values previously associated with the name; other
names are untouched. -/
def header_insert (headers : List (String × String)) (name value : String) :
    List (String × String) :=
  headers.filter (fun p => p.1 != name) ++ [(name, value)]

/-- The per-request context the companion reads: `context.backend_uri`'s
authority component, `none` when the backend URI has no authority part
(`Uri::authority` returns `Option`; line 19 unwraps it). -/
structure RequestHandlerContext where
  backend_authority : Option String
deriving DecidableEq, Repr

/-- `StickyCookieCompanion::modify_response`
(sticky_cookie_companion.rs lines 18-31): build the affinity cookie from the
pool configuration and the authority of the backend URI actually used, and
insert it as the `set-cookie` header. Returns `none` when the `unwrap` at
line 19 panics because the backend URI has no authority. -/
def modify_response (config : StickyCookieConfig) (response : HttpResponse)
    (context : RequestHandlerContext) : Option HttpResponse :=
  match context.backend_authority with
  | none => none
  | some authority =>
    some { response with
      headers := header_insert response.headers "set-cookie"
        (cookie_to_string config authority) }

lemma get_all_append (xs ys : List (String × String)) (name : String) :
    get_all (xs ++ ys) name = get_all xs name ++ get_all ys name := by
  simp [get_all, List.filter_append]

lemma get_all_header_insert_same (headers : List (String × String))
    (name value : String) :
    get_all (header_insert headers name value) name = [value] := by
  rw [header_insert, get_all_append]
  have h : get_all (headers.filter (fun p => p.1 != name)) name = [] := by
    simp only [get_all, List.map_eq_nil_iff, List.filter_filter]
    apply List.filter_eq_nil_iff.mpr
    intro p _
    simp only [bne, Bool.and_comm]
    cases hb : p.1 == name <;> simp [hb]
  rw [h]
  simp [get_all]

lemma get_all_header_insert_other (headers : List (String × String))
    (name value other : String) (hne : other ≠ name) :
    get_all (header_insert headers name value) other = get_all headers other := by
  rw [header_insert, get_all_append]
  have h2 : get_all [(name, value)] other = [] := by
    have hb : (name == other) = false := beq_eq_false_iff_ne.mpr (Ne.symm hne)
    simp [get_all, List.filter, hb]
  rw [h2, List.append_nil]
  simp only [get_all, List.filter_filter]
  congr 1
  apply List.filter_congr
  intro p _
  cases hb : p.1 == other
  · simp
  · have : p.1 = other := by simpa using hb
    simp [this, bne, hne]

/-- C8: for every response (any status, error responses included) and every
context whose backend URI carries an authority, `modify_response` stamps the
response with a `set-cookie` header whose value is the affinity cookie built
from the pool configuration and that authority. -/
theorem C8_always_stamps_affinity_cookie (config : StickyCookieConfig)
    (response : HttpResponse) (context : RequestHandlerContext)
    (authority : String) (h : context.backend_authority = some authority) :
    ∃ r, modify_response config response context = some r ∧
      get_all r.headers "set-cookie" = [cookie_to_string config authority] := by
  refine ⟨{ response with
    headers := header_insert response.headers "set-cookie"
      (cookie_to_string config authority) }, ?_, ?_⟩
  · simp [modify_response, h]
  · exact get_all_header_insert_same _ _ _

/-- Witness for C8: a 502 error response from the backend still gets the
affinity cookie naming the backend actually used, with the configured name
and attributes. -/
theorem C8_witness :
    ∃ r, modify_response
        { cookie_name := "lb_cookie", http_only := true, secure := true,
          same_site := SameSite.strict }
        { status := 502, headers := [("content-type", "text/html")],
          body := "bad gateway" }
        { backend_authority := some "10.0.0.2:8080" } = some r ∧
      get_all r.headers "set-cookie" =
        ["lb_cookie=10.0.0.2:8080; HttpOnly; Secure; SameSite=Strict"] :=
  C8_always_stamps_affinity_cookie
    { cookie_name := "lb_cookie", http_only := true, secure := true,
      same_site := SameSite.strict }
    { status := 502, headers := [("content-type", "text/html")],
      body := "bad gateway" }
    { backend_authority := some "10.0.0.2:8080" } "10.0.0.2:8080" rfl

/-- C9: `modify_response` changes only the `set-cookie` header — status, body
and every other header are unchanged — and it sets `set-cookie` by
replacement, so any `set-cookie` already present is overwritten by the single
affinity cookie rather than appended to. -/
theorem C9_frame_and_replacement (config : StickyCookieConfig)
    (response : HttpResponse) (context : RequestHandlerContext)
    (authority : String) (h : context.backend_authority = some authority) :
    ∃ r, modify_response config response context = some r ∧
      r.status = response.status ∧ r.body = response.body ∧
      (∀ name, name ≠ "set-cookie" →
        get_all r.headers name = get_all response.headers name) ∧
      get_all r.headers "set-cookie" = [cookie_to_string config authority] := by
  refine ⟨{ response with
    headers := header_insert response.headers "set-cookie"
      (cookie_to_string config authority) }, ?_, rfl, rfl, ?_,
    get_all_header_insert_same _ _ _⟩
  · simp [modify_response, h]
  · intro name hn
    exact get_all_header_insert_other _ _ _ _ hn

/-- Witness for C9: a backend response that already carries a `set-cookie`
header ends up with exactly the single affinity cookie, while its status,
body and other headers are untouched. -/
theorem C9_witness :
    ∃ r, modify_response
        { cookie_name := "lb_cookie", http_only := false, secure := false,
          same_site := SameSite.lax }
        { status := 200,
          headers := [("set-cookie", "backend_session=abc"),
            ("content-length", "4")],
          body := "pong" }
        { backend_authority := some "192.168.1.9:9000" } = some r ∧
      r.status = 200 ∧ r.body = "pong" ∧
      (∀ name, name ≠ "set-cookie" →
        get_all r.headers name =
          get_all [("set-cookie", "backend_session=abc"),
            ("content-length", "4")] name) ∧
      get_all r.headers "set-cookie" =
        ["lb_cookie=192.168.1.9:9000; SameSite=Lax"] :=
  C9_frame_and_replacement
    { cookie_name := "lb_cookie", http_only := false, secure := false,
      same_site := SameSite.lax }
    { status := 200,
      headers := [("set-cookie", "backend_session=abc"), ("content-length", "4")],
      body := "pong" }
    { backend_authority := some "192.168.1.9:9000" } "192.168.1.9:9000" rfl

/-- A concrete per-pool health configuration used in witnesses and
counterexamples: 300 ms slow threshold, a pool-configured interval of 5
seconds, 1000 ms timeout, path `/health`. -/
def example_config : HealthConfig :=
  { slow_threshold := 300, interval := 5, timeout := 1000, path := "/health" }

def pool_one : BackendPool :=
  { addresses := [("10.0.0.1:80", Healthiness.healthy)],
    health_config := example_config }

def pool_two : BackendPool :=
  { addresses := [("10.0.0.2:80", Healthiness.healthy)],
    health_config := example_config }

/-- A snapshot history in which a reload between tick 0 and tick 1 replaces
`pool_one` by `pool_two`. -/
def reload_snaps : Nat → Snapshot
  | 0 => [pool_one]
  | _ + 1 => [pool_two]

/-- A backend that answers promptly with 200. -/
def prompt_backend : NetworkBehavior :=
  { connects := true, connect_ms := 10, read_ms := 10, write_ms := 10,
    status := 200, elapsed_ms := 25 }

/-- C1: the claim says each tick probes the snapshot current at that tick, so
after a reload the next tick probes the new pools. The code loads the
`Access` guard once, before the loop (health.rs line 53), so after
`reload_snaps` publishes `pool_two`, tick 1 still enumerates `pool_one`'s
address while the specified behavior enumerates `pool_two`'s. -/
theorem C1_stale_snapshot_divergence :
    watch_health_tick_pairs reload_snaps 1 = [(pool_one, "10.0.0.1:80")] ∧
    spec_tick_pairs reload_snaps 1 = [(pool_two, "10.0.0.2:80")] ∧
    watch_health_tick_pairs reload_snaps 1 ≠ spec_tick_pairs reload_snaps 1 := by
  refine ⟨rfl, rfl, ?_⟩
  decide

/-- C2 counterexample: a pool whose `HealthConfig` carries `interval = 5` is
still probed on the process-wide 20-second cadence, not every 5 seconds. -/
theorem C2_counterexample : effective_probe_interval_seconds example_config ≠ 5 := by
  decide

/-- C2 amended: the tick interval is the process-wide constant
`CHECK_INTERVAL` = 20 seconds for every pool; `HealthConfig.interval` is
never consulted, and every (pool, address) pair the watcher enumerates is
probed on every tick of that single timer. -/
theorem C2_amended_process_wide_interval (snaps : Nat → Snapshot) (t : Nat)
    (pool : BackendPool) (addr : String)
    (h : (pool, addr) ∈ watch_health_tick_pairs snaps 0) :
    (pool, addr) ∈ watch_health_tick_pairs snaps t ∧
      effective_probe_interval_seconds pool.health_config = CHECK_INTERVAL :=
  ⟨h, rfl⟩

/-- Witness for C2: `pool_one` (whose configured interval is 5 seconds) is
probed at tick 7 as on every tick, always on the 20-second timer. -/
theorem C2_witness :
    (pool_one, "10.0.0.1:80") ∈ watch_health_tick_pairs reload_snaps 7 ∧
      effective_probe_interval_seconds pool_one.health_config = CHECK_INTERVAL :=
  C2_amended_process_wide_interval reload_snaps 7 pool_one "10.0.0.1:80" (by decide)

/-- C3 counterexample: the claim says the watcher never panics for all
inputs including malformed addresses; but for the address `"exa mple"`
(containing a space) the `unwrap` on `Authority::from_maybe_shared`
(health.rs line 77) panics, aborting the probe and with it the tick and the
watcher loop. -/
theorem C3_counterexample :
    check_server_health_once "exa mple" Healthiness.healthy example_config
      prompt_backend = ProbeOutcome.panicked := by
  decide

lemma check_completes_on_valid_input (server_address : String)
    (previous : Healthiness) (health_config : HealthConfig)
    (net : NetworkBehavior) (ha : is_valid_authority server_address = true)
    (hp : is_valid_path_and_query health_config.path = true) :
    check_server_health_once server_address previous health_config net =
      ProbeOutcome.completed (publish_if_changed server_address previous
        (contact_server net health_config.slow_threshold health_config.timeout)) := by
  simp [check_server_health_once, ha, hp]

/-- C3 amended: for every snapshot whose addresses and paths are valid
authority/path strings, no probe of a tick panics — however the network
behaves, every probe completes with an effect confined to its own address's
cell, so the tick and the watcher loop are never aborted. (A malformed
address or path, by contrast, panics the URI builder's `unwrap`s at
health.rs lines 77 and 79: see the counterexample.) -/
theorem C3_valid_inputs_never_abort (pools : Snapshot)
    (nets : String → NetworkBehavior)
    (hvalid : ∀ pool ∈ pools,
      is_valid_path_and_query pool.health_config.path = true ∧
      ∀ a ∈ pool.addresses, is_valid_authority a.1 = true) :
    ProbeOutcome.panicked ∉ (tick_outcomes pools nets).map Prod.snd := by
  intro hmem
  rw [List.mem_map] at hmem
  obtain ⟨⟨addr, out⟩, hin, hsnd⟩ := hmem
  rw [tick_outcomes, List.mem_flatMap] at hin
  obtain ⟨pool, hpool, hpair⟩ := hin
  rw [List.mem_map] at hpair
  obtain ⟨a, haddr, heq⟩ := hpair
  obtain ⟨hpath, haddrs⟩ := hvalid pool hpool
  have hv := haddrs a haddr
  have hcomp := check_completes_on_valid_input a.1 a.2 pool.health_config
    (nets a.1) hv hpath
  cases heq
  simp only at hsnd
  rw [hcomp] at hsnd
  exact ProbeOutcome.noConfusion hsnd

/-- Witness for C3: a tick over `pool_one` (valid address and path) against a
backend that answers promptly contains no panicked probe. -/
theorem C3_witness :
    ProbeOutcome.panicked ∉
      (tick_outcomes [pool_one] (fun _ => prompt_backend)).map Prod.snd :=
  C3_valid_inputs_never_abort [pool_one] (fun _ => prompt_backend) (by decide)
